import Mathlib

/-!
Shallow embedding of the asset-management core (inventory app) for
verification of its specification.

The embedding models, from `src/inventory/models.py` and
`src/inventory/views.py`:
* the `Location` tree with its derived hierarchy functions
  (`get_parent_standalone`, `get_main_store`, `can_transfer_to`) and the
  `auto_create_store_for_standalone` post-save signal;
* `ItemInstance.change_status` with its date-stamp side effects;
* `LocationInventory.update_quantities`;
* the stock-entry transfer protocol
  (`_process_issue_entry`, `acknowledge_receipt`, `acknowledge_return`);
* the inspection-certificate stage machine (the four `submit_*` view
  actions plus `reject`).

Database rows are lists of records keyed by numeric ids; foreign keys are
ids; `timezone.now()` is an explicit `now : Nat` parameter; HTTP 400
responses are `Except.error`.  Fields that no claim mentions (names,
remarks, QR data, actors, movement rows, activity logs) are omitted.
-/

namespace AmsUser

/-- One row of the `Location` table (`src/inventory/models.py`, class
`Location`).  `lid` is the primary key; `parent_location` and
`auto_created_store` are nullable self foreign keys. -/
structure Loc where
  lid : Nat
  code : String
  parent_location : Option Nat
  is_store : Bool
  is_standalone : Bool
  is_main_store : Bool
  is_auto_created : Bool
  auto_created_store : Option Nat
  is_active : Bool
deriving Repr, DecidableEq

/-- The `Location` table. -/
abbrev World := List Loc

/-- Fetch a location row by primary key. -/
def lookupLoc (w : World) (i : Nat) : Option Loc :=
  w.find? (fun l => l.lid == i)

/-- The parent-chain walk inside `Location.get_parent_standalone`:
starting from an optional parent id, return the first ancestor with
`is_standalone = True`.  `fuel` bounds the walk (the Python `while`
loop relies on the tree being acyclic). -/
def walk_standalone (w : World) : Nat → Option Nat → Option Loc
  | _, none => none
  | 0, some _ => none
  | fuel + 1, some p =>
    match lookupLoc w p with
    | none => none
    | some pl =>
      if pl.is_standalone then some pl
      else walk_standalone w fuel pl.parent_location

/-- `Location.get_parent_standalone` (models.py): the location itself if
it is standalone, else the nearest standalone ancestor, else `none`. -/
def get_parent_standalone (w : World) (fuel : Nat) (l : Loc) : Option Loc :=
  if l.is_standalone then some l
  else walk_standalone w fuel l.parent_location

/-- `Location.get_main_store` (models.py): a main store is itself; a
standalone location with an auto-created store yields that store;
otherwise the auto-created store of the nearest standalone ancestor. -/
def get_main_store (w : World) (fuel : Nat) (l : Loc) : Option Loc :=
  if l.is_store && l.is_main_store then some l
  else
    match (if l.is_standalone then l.auto_created_store else none) with
    | some sid => lookupLoc w sid
    | none =>
      match get_parent_standalone w fuel l with
      | some ps =>
        match ps.auto_created_store with
        | some sid => lookupLoc w sid
        | none => none
      | none => none

/-- Django model equality is by primary key; `None == None` is `True` in
Python, so two absent standalone ancestors compare equal. -/
def optLocEq : Option Loc → Option Loc → Bool
  | none, none => true
  | some a, some b => a.lid == b.lid
  | _, _ => false

/-- `Location.can_transfer_to` (models.py lines 304-330).  A non-store
source can never transfer; same nearest standalone ancestor always may;
a main store may additionally transfer when the target *is* the
standalone ancestor of its standalone ancestor's parent. -/
def can_transfer_to (w : World) (fuel : Nat) (l target : Loc) : Bool :=
  if !l.is_store then false
  else
    let sps := get_parent_standalone w fuel l
    let tps := get_parent_standalone w fuel target
    if optLocEq sps tps then true
    else
      if l.is_main_store && sps.isSome then
        match sps with
        | none => false
        | some spsl =>
          match spsl.parent_location with
          | none => false
          | some pid =>
            match lookupLoc w pid with
            | none => false
            | some pl =>
              match get_parent_standalone w fuel pl with
              | none => false
              | some pop => target.lid == pop.lid
      else false

/-- Largest primary key in use in the `Location` table. -/
def maxLid (w : World) : Nat :=
  w.foldr (fun l m => max l.lid m) 0

/-- The next primary key the database would assign. -/
def freshLid (w : World) : Nat := maxLid w + 1

/-- The `auto_create_store_for_standalone` post-save signal
(models.py lines 366-417): when a freshly created location is standalone
and not a store, create its `-MAIN-STORE` child and point
`auto_created_store` at it. -/
def auto_create_store_for_standalone (w : World) (inst : Loc) : World :=
  if inst.is_standalone && !inst.is_store then
    let sid := freshLid w
    let store : Loc :=
      { lid := sid
        code := inst.code ++ "-MAIN-STORE"
        parent_location := some inst.lid
        is_store := true
        is_standalone := false
        is_main_store := true
        is_auto_created := true
        auto_created_store := none
        is_active := true }
    (w.map fun l =>
      if l.lid = inst.lid then { l with auto_created_store := some sid } else l)
      ++ [store]
  else w

/-- Creating a location: insert the row, then run the post-save signal
on it. -/
def createLocation (w : World) (inst : Loc) : World :=
  auto_create_store_for_standalone (w ++ [inst]) inst

/-! ### Item instances and the status machine -/

/-- `InstanceStatus` (models.py). -/
inductive InstanceStatus
  | IN_STORE
  | IN_TRANSIT
  | IN_USE
  | TEMPORARY_ISSUED
  | UNDER_REPAIR
  | DAMAGED
  | LOST
  | CONDEMNED
  | DISPOSED
deriving Repr, DecidableEq

/-- One row of the `ItemInstance` table (models.py, class `ItemInstance`).
`source_location` (the owning custodian) and `current_location` are
non-nullable foreign keys; the date stamps are nullable.  Dates and
datetimes are both modelled as abstract instants `Nat`. -/
structure ItemInstance where
  iid : Nat
  item : Nat
  current_status : InstanceStatus
  previous_status : Option InstanceStatus
  source_location : Nat
  current_location : Nat
  assigned_date : Option Nat
  actual_return_date : Option Nat
  repair_started_date : Option Nat
  damage_reported_date : Option Nat
  disposal_date : Option Nat
  status_changed_at : Option Nat
deriving Repr, DecidableEq

/-- `ItemInstance.change_status` (models.py lines 1239-1279): record the
previous status, set the new one, optionally move the instance, and
apply the status-specific date stamps.  The repair and damage stamps are
guarded (`if not self.repair_started_date`), the assignment, actual
return and disposal stamps are not.  `source_location` is never
touched. -/
def change_status (inst : ItemInstance) (new_status : InstanceStatus)
    (now : Nat) (location : Option Nat) : ItemInstance :=
  let old_status := inst.current_status
  let i : ItemInstance :=
    { inst with
      previous_status := some old_status
      current_status := new_status
      status_changed_at := some now
      current_location := location.getD inst.current_location }
  if new_status = InstanceStatus.TEMPORARY_ISSUED then
    { i with assigned_date := some now }
  else if new_status = InstanceStatus.IN_STORE ∧
      old_status = InstanceStatus.TEMPORARY_ISSUED then
    { i with actual_return_date := some now }
  else if new_status = InstanceStatus.UNDER_REPAIR then
    if i.repair_started_date = none then
      { i with repair_started_date := some now }
    else i
  else if new_status = InstanceStatus.DAMAGED then
    if i.damage_reported_date = none then
      { i with damage_reported_date := some now }
    else i
  else if new_status = InstanceStatus.DISPOSED then
    { i with disposal_date := some now }
  else i

/-! ### Stock entries and the transfer protocol -/

/-- `StockEntry.ENTRY_TYPE_CHOICES`. -/
inductive EntryType
  | RECEIPT
  | ISSUE
  | CORRECTION
  | RETURN
deriving Repr, DecidableEq

/-- `StockEntry.STATUS_CHOICES`. -/
inductive EntryStatus
  | DRAFT
  | PENDING_ACK
  | COMPLETED
  | CANCELLED
deriving Repr, DecidableEq

/-- One row of the `StockEntry` table plus its `instances` many-to-many
set (models.py, class `StockEntry`).  Derived bookkeeping flags
(`requires_acknowledgment`, `is_cross_location`, `is_upward_transfer`)
and free-text fields are omitted; no claim mentions them. -/
structure StockEntry where
  eid : Nat
  entry_type : EntryType
  status : EntryStatus
  from_location : Option Nat
  to_location : Option Nat
  item : Nat
  quantity : Nat
  instance_ids : List Nat
  reference_entry : Option Nat
  is_temporary : Bool
deriving Repr, DecidableEq

/-- Fetch a stock entry row by primary key. -/
def lookupEntry (entries : List StockEntry) (i : Nat) : Option StockEntry :=
  entries.find? (fun e => e.eid == i)

/-- The next primary key the database would assign to a stock entry. -/
def nextEid (entries : List StockEntry) : Nat :=
  (entries.foldr (fun e m => max e.eid m) 0) + 1

/-- `StockEntryViewSet._process_issue_entry` (views.py lines 1434-1460):
issuing to a store puts the referenced instances `IN_TRANSIT` and leaves
the entry `PENDING_ACK`; issuing to a non-store puts them
`TEMPORARY_ISSUED` (temporary entry) or `IN_USE` and completes the entry
at once.  Returns `none` when the destination is missing (the Python
would fault dereferencing `None`). -/
def process_issue_entry (locs : World) (insts : List ItemInstance)
    (e : StockEntry) (now : Nat) :
    Option (List ItemInstance × StockEntry) :=
  match e.to_location with
  | none => none
  | some tl =>
    match lookupLoc locs tl with
    | none => none
    | some toLoc =>
      let target_status :=
        if toLoc.is_store then InstanceStatus.IN_TRANSIT
        else if e.is_temporary then InstanceStatus.TEMPORARY_ISSUED
        else InstanceStatus.IN_USE
      let new_entry_status :=
        if toLoc.is_store then EntryStatus.PENDING_ACK
        else EntryStatus.COMPLETED
      let insts' := insts.map fun i =>
        if i.iid ∈ e.instance_ids then
          change_status i target_status now (some tl)
        else i
      some (insts', { e with status := new_entry_status })

def errNotPendingAck : String := "Entry is not pending acknowledgment"

def errNothingToAck : String := "Must accept or reject at least one instance"

def errEntryNotFound : String := "Entry not found"

def errMissingEndpoint : String := "Entry has no from/to location"

def errOnlyReturn : String := "This endpoint is only for RETURN entries"

def errReturnNotPending : String := "Return is not pending acknowledgment"

def errNoInstances : String := "No instances to acknowledge"

/-- `StockEntryViewSet.acknowledge_receipt` (views.py lines 1491-1670).
Accepted instances change owner (`source_location`) to the destination
and become `IN_STORE` under a new completed `RECEIPT` entry; rejected
instances keep their owner, stay `IN_TRANSIT` routed back to the sender,
and a new `RETURN` entry in `PENDING_ACK` is created for them; the
original entry is completed.  Precondition failures return before any
write (`@transaction.atomic`). -/
def acknowledge_receipt (insts : List ItemInstance)
    (entries : List StockEntry) (eid : Nat)
    (accepted rejected : List Nat) (now : Nat) :
    Except String (List ItemInstance × List StockEntry) :=
  match lookupEntry entries eid with
  | none => Except.error errEntryNotFound
  | some stock_entry =>
    if stock_entry.status ≠ EntryStatus.PENDING_ACK then
      Except.error errNotPendingAck
    else if accepted = [] ∧ rejected = [] then
      Except.error errNothingToAck
    else
      match stock_entry.from_location, stock_entry.to_location with
      | some fl, some tl =>
        let acceptance_receipt : Option StockEntry :=
          if accepted = [] then none
          else some
            { eid := nextEid entries
              entry_type := EntryType.RECEIPT
              status := EntryStatus.COMPLETED
              from_location := some fl
              to_location := some tl
              item := stock_entry.item
              quantity := accepted.length
              instance_ids := accepted
              reference_entry := some eid
              is_temporary := false }
        let insts1 := insts.map fun i =>
          if i.iid ∈ accepted then
            { i with
              source_location := tl
              current_location := tl
              current_status := InstanceStatus.IN_STORE
              status_changed_at := some now }
          else i
        let return_entry : Option StockEntry :=
          if rejected = [] then none
          else some
            { eid := nextEid (entries ++ acceptance_receipt.toList)
              entry_type := EntryType.RETURN
              status := EntryStatus.PENDING_ACK
              from_location := some tl
              to_location := some fl
              item := stock_entry.item
              quantity := rejected.length
              instance_ids := rejected
              reference_entry := some eid
              is_temporary := false }
        let insts2 := insts1.map fun i =>
          if i.iid ∈ rejected then
            { i with
              current_location := fl
              current_status := InstanceStatus.IN_TRANSIT
              previous_status := some InstanceStatus.IN_TRANSIT
              status_changed_at := some now }
          else i
        let entries' :=
          (entries.map fun e =>
            if e.eid = eid then { e with status := EntryStatus.COMPLETED } else e)
          ++ acceptance_receipt.toList ++ return_entry.toList
        Except.ok (insts2, entries')
      | _, _ => Except.error errMissingEndpoint

/-- `StockEntryViewSet.acknowledge_return` (views.py lines 1675-1806).
The original sender acknowledges returned rejected items: a completed
`RECEIPT` entry is created, the instances become `IN_STORE` at the
return entry's destination (the original sender), and the `RETURN` entry
is completed.  An empty id list defaults to all instances of the
entry. -/
def acknowledge_return (insts : List ItemInstance)
    (entries : List StockEntry) (eid : Nat)
    (accepted : List Nat) (now : Nat) :
    Except String (List ItemInstance × List StockEntry) :=
  match lookupEntry entries eid with
  | none => Except.error errEntryNotFound
  | some return_entry =>
    if return_entry.entry_type ≠ EntryType.RETURN then
      Except.error errOnlyReturn
    else if return_entry.status ≠ EntryStatus.PENDING_ACK then
      Except.error errReturnNotPending
    else
      let acknowledged_ids :=
        if accepted = [] then return_entry.instance_ids else accepted
      if acknowledged_ids = [] then Except.error errNoInstances
      else
        match return_entry.from_location, return_entry.to_location with
        | some fl, some tl =>
          let receipt_entry : StockEntry :=
            { eid := nextEid entries
              entry_type := EntryType.RECEIPT
              status := EntryStatus.COMPLETED
              from_location := some fl
              to_location := some tl
              item := return_entry.item
              quantity := acknowledged_ids.length
              instance_ids := acknowledged_ids
              reference_entry := some eid
              is_temporary := false }
          let insts' := insts.map fun i =>
            if i.iid ∈ acknowledged_ids then
              { i with
                current_location := tl
                current_status := InstanceStatus.IN_STORE
                previous_status := some InstanceStatus.IN_TRANSIT
                status_changed_at := some now }
            else i
          let entries' :=
            (entries.map fun e =>
              if e.eid = eid then { e with status := EntryStatus.COMPLETED } else e)
            ++ [receipt_entry]
          Except.ok (insts', entries')
        | _, _ => Except.error errMissingEndpoint

/-! ### Location inventory aggregate -/

/-- One row of `LocationInventory` (models.py, class `LocationInventory`),
keyed by (location, item). -/
structure LocationInventory where
  location : Nat
  item : Nat
  total_quantity : Nat
  available_quantity : Nat
  in_store_quantity : Nat
  in_transit_quantity : Nat
  in_use_quantity : Nat
  temporary_issued_quantity : Nat
  under_repair_quantity : Nat
  damaged_quantity : Nat
  lost_quantity : Nat
  condemned_quantity : Nat
  disposed_quantity : Nat
deriving Repr, DecidableEq

/-- `LocationInventory.update_quantities` (models.py lines 1506-1558):
recompute every bucket from the `ItemInstance` table.  All buckets but
`available_quantity` count instances whose `source_location` is this
row's location; `available_quantity` counts by `current_location`. -/
def update_quantities (insts : List ItemInstance)
    (inv : LocationInventory) : LocationInventory :=
  let source_instances := insts.filter fun i =>
    i.item == inv.item && i.source_location == inv.location
  let countStatus (s : InstanceStatus) : Nat :=
    (source_instances.filter fun i => i.current_status == s).length
  { inv with
    total_quantity := source_instances.length
    in_store_quantity :=
      (source_instances.filter fun i =>
        i.current_status == InstanceStatus.IN_STORE &&
          i.current_location == inv.location).length
    in_transit_quantity := countStatus InstanceStatus.IN_TRANSIT
    in_use_quantity := countStatus InstanceStatus.IN_USE
    temporary_issued_quantity := countStatus InstanceStatus.TEMPORARY_ISSUED
    under_repair_quantity := countStatus InstanceStatus.UNDER_REPAIR
    damaged_quantity := countStatus InstanceStatus.DAMAGED
    lost_quantity := countStatus InstanceStatus.LOST
    condemned_quantity := countStatus InstanceStatus.CONDEMNED
    disposed_quantity := countStatus InstanceStatus.DISPOSED
    available_quantity :=
      (insts.filter fun i =>
        i.item == inv.item && i.current_location == inv.location &&
          i.current_status == InstanceStatus.IN_STORE).length }

/-! ### Inspection certificate workflow -/

/-- `InspectionStage` (models.py lines 569-576). -/
inductive InspectionStage
  | INITIATED
  | STOCK_DETAILS
  | CENTRAL_REGISTER
  | AUDIT_REVIEW
  | COMPLETED
  | REJECTED
deriving Repr, DecidableEq

/-- The state of one `InspectionCertificate` as the four `submit_*` view
actions and `reject` see it.  `is_root_department` abbreviates
`department.parent_location is None` (the department reference is fixed
at creation); `has_main_store` abbreviates
`get_main_store(department) is not None`; the four `has_*` data flags
abbreviate the emptiness checks the views run on header fields and
`inspection_items` rows. -/
structure Cert where
  is_root_department : Bool
  has_main_store : Bool
  stage : InspectionStage
  stage_history : List (InspectionStage × InspectionStage)
  has_items : Bool
  has_stock_register : Bool
  has_central_register : Bool
  has_consignee : Bool
deriving Repr, DecidableEq

/-- `InspectionCertificate.transition_stage` (models.py lines 794-844):
append one `(from_stage, to_stage)` history entry and set the stage. -/
def transition_stage (c : Cert) (new_stage : InspectionStage) : Cert :=
  { c with
    stage := new_stage
    stage_history := c.stage_history ++ [(c.stage, new_stage)] }

/-- A partial serializer update: each view action may change the data
fields of the certificate before transitioning (`partial=True`). -/
structure CertData where
  has_items : Option Bool
  has_stock_register : Option Bool
  has_central_register : Option Bool
  has_consignee : Option Bool
deriving Repr, DecidableEq

/-- Apply a partial update to a certificate's data fields. -/
def applyData (c : Cert) (d : CertData) : Cert :=
  { c with
    has_items := d.has_items.getD c.has_items
    has_stock_register := d.has_stock_register.getD c.has_stock_register
    has_central_register := d.has_central_register.getD c.has_central_register
    has_consignee := d.has_consignee.getD c.has_consignee }

def errWrongStage : String := "Certificate is not in the required stage"

def errNoMainStore : String := "No main store found for this department"

def errRootNoStockDetails : String :=
  "Root location certificates should not be in STOCK_DETAILS stage"

def errNeedItems : String := "At least one inspection item is required."

def errNeedStockRegister : String :=
  "Please fill stock register details for at least one item before submitting."

def errNeedCentralRegister : String :=
  "Please fill central register details for at least one item before submitting."

def errNeedConsignee : String :=
  "Please fill consignee name and designation before submitting."

def errReasonRequired : String := "Rejection reason required"

def errTerminalStage : String := "Cannot reject certificate in this stage"

/-- `InspectionCertificateViewSet.submit_to_stock_incharge`
(views.py lines 816-879): from `INITIATED`, a root-department
certificate goes directly to `CENTRAL_REGISTER`, a non-root one to
`STOCK_DETAILS`. -/
def submit_to_stock_incharge (c : Cert) (d : CertData) : Except String Cert :=
  if c.stage ≠ InspectionStage.INITIATED then Except.error errWrongStage
  else if ¬ c.has_main_store then Except.error errNoMainStore
  else
    let c := applyData c d
    if c.is_root_department then
      Except.ok (transition_stage c InspectionStage.CENTRAL_REGISTER)
    else
      Except.ok (transition_stage c InspectionStage.STOCK_DETAILS)

/-- `InspectionCertificateViewSet.submit_stock_details`
(views.py lines 881-945): non-root only, `STOCK_DETAILS` to
`CENTRAL_REGISTER`, requiring at least one item and a filled stock
register reference. -/
def submit_stock_details (c : Cert) (d : CertData) : Except String Cert :=
  if c.stage ≠ InspectionStage.STOCK_DETAILS then Except.error errWrongStage
  else if c.is_root_department then Except.error errRootNoStockDetails
  else
    let c := applyData c d
    if ¬ c.has_items then Except.error errNeedItems
    else if ¬ c.has_stock_register then Except.error errNeedStockRegister
    else Except.ok (transition_stage c InspectionStage.CENTRAL_REGISTER)

/-- `InspectionCertificateViewSet.submit_central_register`
(views.py lines 947-1005): `CENTRAL_REGISTER` to `AUDIT_REVIEW`,
requiring a central register reference and, for root certificates,
consignee details. -/
def submit_central_register (c : Cert) (d : CertData) : Except String Cert :=
  if c.stage ≠ InspectionStage.CENTRAL_REGISTER then Except.error errWrongStage
  else
    let c := applyData c d
    if ¬ c.has_central_register then Except.error errNeedCentralRegister
    else if c.is_root_department ∧ ¬ c.has_consignee then
      Except.error errNeedConsignee
    else Except.ok (transition_stage c InspectionStage.AUDIT_REVIEW)

/-- `InspectionCertificateViewSet.submit_audit_review`
(views.py lines 1007-1072): `AUDIT_REVIEW` to `COMPLETED`, requiring a
main store, a central register reference and consignee details. -/
def submit_audit_review (c : Cert) (d : CertData) : Except String Cert :=
  if c.stage ≠ InspectionStage.AUDIT_REVIEW then Except.error errWrongStage
  else if ¬ c.has_main_store then Except.error errNoMainStore
  else
    let c := applyData c d
    if ¬ c.has_central_register then Except.error errNeedCentralRegister
    else if ¬ c.has_consignee then Except.error errNeedConsignee
    else Except.ok (transition_stage c InspectionStage.COMPLETED)

/-- `InspectionCertificateViewSet.reject` (views.py lines 1128-1149):
rejection needs a reason and a non-terminal stage. -/
def reject_certificate (c : Cert) (has_reason : Bool) : Except String Cert :=
  if ¬ has_reason then Except.error errReasonRequired
  else if c.stage = InspectionStage.COMPLETED ∨
      c.stage = InspectionStage.REJECTED then
    Except.error errTerminalStage
  else Except.ok (transition_stage c InspectionStage.REJECTED)

/-- The five entry points a certificate can be driven through after
creation. -/
inductive CertAction
  | submitToStockIncharge (d : CertData)
  | submitStockDetails (d : CertData)
  | submitCentralRegister (d : CertData)
  | submitAuditReview (d : CertData)
  | reject (has_reason : Bool)

/-- Dispatch one view action on a certificate. -/
def certStep (c : Cert) : CertAction → Except String Cert
  | CertAction.submitToStockIncharge d => submit_to_stock_incharge c d
  | CertAction.submitStockDetails d => submit_stock_details c d
  | CertAction.submitCentralRegister d => submit_central_register c d
  | CertAction.submitAuditReview d => submit_audit_review c d
  | CertAction.reject r => reject_certificate c r

/-- A freshly created certificate: stage defaults to `INITIATED`
(models.py `stage` field default) with an empty history. -/
def initialCert (root store items stock central consignee : Bool) : Cert :=
  { is_root_department := root
    has_main_store := store
    stage := InspectionStage.INITIATED
    stage_history := []
    has_items := items
    has_stock_register := stock
    has_central_register := central
    has_consignee := consignee }

/-- Certificates reachable from creation through successful view
actions. -/
inductive CertReachable : Cert → Prop
  | init (root store items stock central consignee : Bool) :
      CertReachable (initialCert root store items stock central consignee)
  | step {c c' : Cert} (a : CertAction) :
      CertReachable c → certStep c a = Except.ok c' → CertReachable c'

/-- The sequence of stages a certificate has passed through: `INITIATED`
at creation, then the target of every recorded transition. -/
def stageTrace (c : Cert) : List InspectionStage :=
  InspectionStage.INITIATED :: c.stage_history.map Prod.snd

/-! ### Concrete fixtures used by witnesses and counterexamples -/

/-- Root standalone location (a "Main University"). -/
def rootLoc : Loc :=
  { lid := 1, code := "MU", parent_location := none, is_store := false
    is_standalone := true, is_main_store := false, is_auto_created := false
    auto_created_store := some 2, is_active := true }

/-- Auto-created main store of the root. -/
def rootStore : Loc :=
  { lid := 2, code := "MU-MAIN-STORE", parent_location := some 1
    is_store := true, is_standalone := false, is_main_store := true
    is_auto_created := true, auto_created_store := none, is_active := true }

/-- A standalone department under the root. -/
def deptLoc : Loc :=
  { lid := 3, code := "PHY", parent_location := some 1, is_store := false
    is_standalone := true, is_main_store := false, is_auto_created := false
    auto_created_store := some 4, is_active := true }

/-- Auto-created main store of the department. -/
def deptStore : Loc :=
  { lid := 4, code := "PHY-MAIN-STORE", parent_location := some 3
    is_store := true, is_standalone := false, is_main_store := true
    is_auto_created := true, auto_created_store := none, is_active := true }

/-- A four-node hierarchy: root, its main store, one department, its
main store. -/
def hierWorld : World := [rootLoc, rootStore, deptLoc, deptStore]

/-- A to-be-created standalone location for the provisioning witness. -/
def newDept : Loc :=
  { lid := 5, code := "CHEM", parent_location := some 1, is_store := false
    is_standalone := true, is_main_store := false, is_auto_created := false
    auto_created_store := none, is_active := true }

/-- An instance whose assignment date was already stamped at instant 5. -/
def stampedInst : ItemInstance :=
  { iid := 21, item := 7, current_status := InstanceStatus.IN_STORE
    previous_status := none, source_location := 4, current_location := 4
    assigned_date := some 5, actual_return_date := none
    repair_started_date := none, damage_reported_date := none
    disposal_date := none, status_changed_at := none }

/-- Three in-transit instances of item 7 owned by the department store,
travelling to the root store. -/
def transitInst (i : Nat) : ItemInstance :=
  { iid := i, item := 7, current_status := InstanceStatus.IN_TRANSIT
    previous_status := some InstanceStatus.IN_STORE, source_location := 4
    current_location := 2, assigned_date := none, actual_return_date := none
    repair_started_date := none, damage_reported_date := none
    disposal_date := none, status_changed_at := some 1 }

def ackInsts : List ItemInstance :=
  [transitInst 11, transitInst 12, transitInst 13]

/-- The pending issue deptStore -> rootStore covering those instances. -/
def pendingIssue : StockEntry :=
  { eid := 1, entry_type := EntryType.ISSUE, status := EntryStatus.PENDING_ACK
    from_location := some 4, to_location := some 2, item := 7, quantity := 3
    instance_ids := [11, 12, 13], reference_entry := none
    is_temporary := false }

/-- An already completed issue, for the re-acknowledgment claim. -/
def completedIssue : StockEntry :=
  { eid := 2, entry_type := EntryType.ISSUE, status := EntryStatus.COMPLETED
    from_location := some 4, to_location := some 2, item := 7, quantity := 1
    instance_ids := [11], reference_entry := none, is_temporary := false }

def ackEntries : List StockEntry := [pendingIssue, completedIssue]

/-- A draft issue towards the root store, for the issue-processing
witness. -/
def draftIssue : StockEntry :=
  { eid := 3, entry_type := EntryType.ISSUE, status := EntryStatus.DRAFT
    from_location := some 4, to_location := some 2, item := 7, quantity := 3
    instance_ids := [11, 12, 13], reference_entry := none
    is_temporary := false }

/-! ### Lemmas about the instance status machine -/

theorem change_status_source_location (inst : ItemInstance)
    (s : InstanceStatus) (now : Nat) (loc : Option Nat) :
    (change_status inst s now loc).source_location = inst.source_location := by
  unfold change_status
  dsimp only
  split_ifs <;> rfl

theorem change_status_current_status (inst : ItemInstance)
    (s : InstanceStatus) (now : Nat) (loc : Option Nat) :
    (change_status inst s now loc).current_status = s := by
  unfold change_status
  dsimp only
  split_ifs <;> rfl

theorem change_status_current_location (inst : ItemInstance)
    (s : InstanceStatus) (now tl : Nat) :
    (change_status inst s now (some tl)).current_location = tl := by
  unfold change_status
  dsimp only
  split_ifs <;> rfl

/-! ### Claim C9 -/

/-- Claim C9: a location that is not a store can never be the source of
a transfer — `can_transfer_to` returns `false` regardless of the target
and of the hierarchy. -/
theorem claim_C9_non_store_cannot_transfer
    (w : World) (fuel : Nat) (l target : Loc) (h : l.is_store = false) :
    can_transfer_to w fuel l target = false := by
  unfold can_transfer_to
  simp [h]

/-- Witness for claim C9: the (non-store) department cannot transfer
even to its own main store. -/
theorem claim_C9_witness :
    deptLoc.is_store = false ∧
      can_transfer_to hierWorld 4 deptLoc deptStore = false :=
  ⟨rfl, claim_C9_non_store_cannot_transfer hierWorld 4 deptLoc deptStore rfl⟩

/-! ### Claim C8 -/

/-- Claim C8: after `update_quantities` recomputes a row, its
`total_quantity` equals the number of item instances whose
`source_location` is that row's location and whose item is that row's
item. -/
theorem claim_C8_total_quantity
    (insts : List ItemInstance) (inv : LocationInventory) :
    (update_quantities insts inv).total_quantity =
      insts.countP
        (fun i => decide (i.source_location = inv.location ∧ i.item = inv.item)) := by
  unfold update_quantities
  dsimp only
  rw [List.countP_eq_length_filter]
  congr 1
  apply List.filter_congr
  intro a _
  rw [Bool.eq_iff_iff]
  simp [and_comm]

/-! ### Claim C7 -/

/-- Claim C7 is refuted: the assignment date is restamped on *every*
entry into `TEMPORARY_ISSUED`.  `stampedInst` already carries
`assigned_date = 5`; changing its status to `TEMPORARY_ISSUED` at
instant 9 overwrites the stamp. -/
theorem claim_C7_counterexample :
    stampedInst.assigned_date = some 5 ∧
      (change_status stampedInst InstanceStatus.TEMPORARY_ISSUED 9
        none).assigned_date = some 9 ∧
      some (9 : Nat) ≠ some 5 := by
  refine ⟨rfl, rfl, by decide⟩

/-- Claim C7 (amended): only the repair-started and damage-reported
stamps are write-once — set on the first entry into
`UNDER_REPAIR`/`DAMAGED` and never overwritten afterwards; the
assignment date is restamped on every entry into `TEMPORARY_ISSUED`,
the actual-return date on every entry into `IN_STORE` from
`TEMPORARY_ISSUED`, and the disposal date on every entry into
`DISPOSED`. -/
theorem claim_C7_amended_date_stamps (inst : ItemInstance)
    (s : InstanceStatus) (now : Nat) (loc : Option Nat) :
    (∀ d, inst.repair_started_date = some d →
      (change_status inst s now loc).repair_started_date = some d) ∧
    (∀ d, inst.damage_reported_date = some d →
      (change_status inst s now loc).damage_reported_date = some d) ∧
    (inst.repair_started_date = none → s = InstanceStatus.UNDER_REPAIR →
      (change_status inst s now loc).repair_started_date = some now) ∧
    (inst.damage_reported_date = none → s = InstanceStatus.DAMAGED →
      (change_status inst s now loc).damage_reported_date = some now) ∧
    (s = InstanceStatus.TEMPORARY_ISSUED →
      (change_status inst s now loc).assigned_date = some now) ∧
    (s = InstanceStatus.IN_STORE →
      inst.current_status = InstanceStatus.TEMPORARY_ISSUED →
      (change_status inst s now loc).actual_return_date = some now) ∧
    (s = InstanceStatus.DISPOSED →
      (change_status inst s now loc).disposal_date = some now) := by
  unfold change_status
  dsimp only
  refine ⟨?_, ?_, ?_, ?_, ?_, ?_, ?_⟩ <;> intros <;> split_ifs <;> simp_all

/-- Witness for the amended claim C7: a first entry into `UNDER_REPAIR`
stamps the repair date, and a repeat entry into `TEMPORARY_ISSUED`
restamps the assignment date. -/
theorem claim_C7_amended_witness :
    (change_status stampedInst InstanceStatus.UNDER_REPAIR 9
        none).repair_started_date = some 9 ∧
      (change_status stampedInst InstanceStatus.TEMPORARY_ISSUED 9
        none).assigned_date = some 9 :=
  ⟨(claim_C7_amended_date_stamps stampedInst InstanceStatus.UNDER_REPAIR 9
      none).2.2.1 rfl rfl,
    (claim_C7_amended_date_stamps stampedInst InstanceStatus.TEMPORARY_ISSUED 9
      none).2.2.2.2.1 rfl⟩

/-! ### Claim C10 -/

/-- Claim C10: acknowledging a pending issue with both the accepted and
the rejected id list empty is rejected with a validation error before
any write (the state is returned unchanged by the `Except.error`). -/
theorem claim_C10_empty_acknowledgment
    (insts : List ItemInstance) (entries : List StockEntry)
    (eid now : Nat) (entry : StockEntry)
    (hfind : lookupEntry entries eid = some entry)
    (_htype : entry.entry_type = EntryType.ISSUE)
    (hstatus : entry.status = EntryStatus.PENDING_ACK) :
    acknowledge_receipt insts entries eid [] [] now =
      Except.error errNothingToAck := by
  unfold acknowledge_receipt
  rw [hfind]
  simp [hstatus]

/-- Witness for claim C10: the concrete pending issue. -/
theorem claim_C10_witness :
    acknowledge_receipt ackInsts ackEntries 1 [] [] 5 =
      Except.error errNothingToAck :=
  claim_C10_empty_acknowledgment ackInsts ackEntries 1 5 pendingIssue
    rfl rfl rfl

/-! ### Claim C2 -/

/-- Claim C2: a stock entry that is already `COMPLETED` can be
acknowledged by neither endpoint: both `acknowledge_receipt` and
`acknowledge_return` fail with a precondition error, and the
`Except.error` result carries no changed state — instances and entries
are untouched. -/
theorem claim_C2_completed_entry_rejects
    (insts : List ItemInstance) (entries : List StockEntry)
    (eid now : Nat) (a r ret : List Nat) (entry : StockEntry)
    (hfind : lookupEntry entries eid = some entry)
    (hstatus : entry.status = EntryStatus.COMPLETED) :
    acknowledge_receipt insts entries eid a r now =
      Except.error errNotPendingAck ∧
    (∃ msg, acknowledge_return insts entries eid ret now =
      Except.error msg) := by
  constructor
  · unfold acknowledge_receipt
    rw [hfind]
    simp [hstatus]
  · unfold acknowledge_return
    rw [hfind]
    by_cases ht : entry.entry_type = EntryType.RETURN
    · exact ⟨errReturnNotPending, by simp [ht, hstatus]⟩
    · exact ⟨errOnlyReturn, by simp [ht]⟩

/-- Witness for claim C2: the concrete completed issue entry. -/
theorem claim_C2_witness :
    acknowledge_receipt ackInsts ackEntries 2 [11] [] 5 =
      Except.error errNotPendingAck ∧
    (∃ msg, acknowledge_return ackInsts ackEntries 2 [11] 5 =
      Except.error msg) :=
  claim_C2_completed_entry_rejects ackInsts ackEntries 2 5 [11] [] [11]
    completedIssue rfl rfl

/-! ### Claim C3 -/

theorem get_map_eq {α β : Type} (f : α → β) (l : List α) (k : Nat)
    (hk : k < l.length) (hk' : k < (l.map f).length) :
    (l.map f).get ⟨k, hk'⟩ = f (l.get ⟨k, hk⟩) := by
  simp

/-- Claim C3: processing an `ISSUE` entry.  If the destination is a
store, every referenced instance becomes `IN_TRANSIT` (ownership, i.e.
`source_location`, untouched) and the entry becomes `PENDING_ACK`; if
the destination is not a store, every referenced instance immediately
becomes `TEMPORARY_ISSUED` (temporary entry) or `IN_USE` and the entry
is `COMPLETED`.  Unreferenced instances are untouched. -/
theorem claim_C3_process_issue
    (locs : World) (insts : List ItemInstance) (e : StockEntry)
    (now tl : Nat) (toLoc : Loc)
    (_htype : e.entry_type = EntryType.ISSUE)
    (htl : e.to_location = some tl)
    (hloc : lookupLoc locs tl = some toLoc) :
    ∃ insts' e', process_issue_entry locs insts e now = some (insts', e') ∧
      insts'.length = insts.length ∧
      (toLoc.is_store = true → e'.status = EntryStatus.PENDING_ACK) ∧
      (toLoc.is_store = false → e'.status = EntryStatus.COMPLETED) ∧
      (∀ k (hk : k < insts.length) (hk' : k < insts'.length),
        ((insts'.get ⟨k, hk'⟩).source_location =
          (insts.get ⟨k, hk⟩).source_location) ∧
        ((insts.get ⟨k, hk⟩).iid ∈ e.instance_ids →
          (toLoc.is_store = true →
            (insts'.get ⟨k, hk'⟩).current_status = InstanceStatus.IN_TRANSIT) ∧
          (toLoc.is_store = false →
            (insts'.get ⟨k, hk'⟩).current_status =
              (if e.is_temporary then InstanceStatus.TEMPORARY_ISSUED
               else InstanceStatus.IN_USE)) ∧
          (insts'.get ⟨k, hk'⟩).current_location = tl) ∧
        ((insts.get ⟨k, hk⟩).iid ∉ e.instance_ids →
          insts'.get ⟨k, hk'⟩ = insts.get ⟨k, hk⟩)) := by
  unfold process_issue_entry
  rw [htl]
  dsimp only
  rw [hloc]
  dsimp only
  refine ⟨_, _, rfl, by simp, ?_, ?_, ?_⟩
  · intro hs
    simp [hs]
  · intro hs
    simp [hs]
  · intro k hk hk'
    rw [get_map_eq _ insts k hk hk']
    by_cases hm : (insts.get ⟨k, hk⟩).iid ∈ e.instance_ids
    · rw [if_pos hm]
      refine ⟨change_status_source_location _ _ _ _, ?_, ?_⟩
      · intro _
        refine ⟨?_, ?_, change_status_current_location _ _ _ _⟩
        · intro hs
          rw [change_status_current_status]
          simp [hs]
        · intro hs
          rw [change_status_current_status]
          simp [hs]
      · intro hnm
        exact absurd hm hnm
    · rw [if_neg hm]
      exact ⟨rfl, fun h => absurd h hm, fun _ => rfl⟩

/-- Witness for claim C3: issuing the three department-store instances
to the root store leaves them in transit and the entry pending. -/
theorem claim_C3_witness :
    ∃ insts' e',
      process_issue_entry hierWorld ackInsts draftIssue 2 = some (insts', e') ∧
      insts'.length = ackInsts.length ∧
      (rootStore.is_store = true → e'.status = EntryStatus.PENDING_ACK) ∧
      (rootStore.is_store = false → e'.status = EntryStatus.COMPLETED) ∧
      (∀ k (hk : k < ackInsts.length) (hk' : k < insts'.length),
        ((insts'.get ⟨k, hk'⟩).source_location =
          (ackInsts.get ⟨k, hk⟩).source_location) ∧
        ((ackInsts.get ⟨k, hk⟩).iid ∈ draftIssue.instance_ids →
          (rootStore.is_store = true →
            (insts'.get ⟨k, hk'⟩).current_status = InstanceStatus.IN_TRANSIT) ∧
          (rootStore.is_store = false →
            (insts'.get ⟨k, hk'⟩).current_status =
              (if draftIssue.is_temporary then InstanceStatus.TEMPORARY_ISSUED
               else InstanceStatus.IN_USE)) ∧
          (insts'.get ⟨k, hk'⟩).current_location = 2) ∧
        ((ackInsts.get ⟨k, hk⟩).iid ∉ draftIssue.instance_ids →
          insts'.get ⟨k, hk'⟩ = ackInsts.get ⟨k, hk⟩)) :=
  claim_C3_process_issue hierWorld ackInsts draftIssue 2 2 rootStore
    rfl rfl rfl

/-! ### Claim C4 -/

theorem mem_lid_le_maxLid (w : World) (l : Loc) (h : l ∈ w) :
    l.lid ≤ maxLid w := by
  induction w with
  | nil => cases h
  | cons a t ih =>
    rcases List.mem_cons.mp h with h | h
    · subst h
      exact le_max_left _ _
    · exact le_trans (ih h) (le_max_right _ _)

theorem lookupLoc_append (w₁ w₂ : World) (i : Nat) :
    lookupLoc (w₁ ++ w₂) i = (lookupLoc w₁ i).or (lookupLoc w₂ i) :=
  List.find?_append

theorem lookupLoc_eq_none (w : World) (i : Nat)
    (h : ∀ l ∈ w, l.lid ≠ i) : lookupLoc w i = none := by
  apply List.find?_eq_none.mpr
  intro l hl
  simp [h l hl]

theorem lookupLoc_map_lid (f : Loc → Loc) (hf : ∀ l, (f l).lid = l.lid)
    (w : World) (i : Nat) :
    lookupLoc (w.map f) i = (lookupLoc w i).map f := by
  unfold lookupLoc
  rw [List.find?_map f w]
  have : ((fun l : Loc => l.lid == i) ∘ f) = (fun l : Loc => l.lid == i) := by
    funext l
    simp [Function.comp, hf]
  rw [this]

/-- Claim C4: creating a location with `is_standalone = true` and
`is_store = false` synchronously creates a child store whose flags are
`is_store`, `is_main_store`, `is_auto_created`, whose code is the parent
code with `-MAIN-STORE` appended and whose parent is the new standalone
location; the standalone location's `auto_created_store` points at it,
so dereferencing the paired store immediately after creation yields the
(non-null) store. -/
theorem claim_C4_auto_store (w : World) (inst : Loc)
    (hsa : inst.is_standalone = true) (hns : inst.is_store = false)
    (hfresh : ∀ l ∈ w, l.lid ≠ inst.lid) :
    ∃ s : Loc,
      lookupLoc (createLocation w inst) (freshLid (w ++ [inst])) = some s ∧
      s.is_store = true ∧ s.is_main_store = true ∧ s.is_auto_created = true ∧
      s.is_standalone = false ∧
      s.code = inst.code ++ "-MAIN-STORE" ∧
      s.parent_location = some inst.lid ∧
      lookupLoc (createLocation w inst) inst.lid =
        some { inst with auto_created_store := some (freshLid (w ++ [inst])) } ∧
      ((lookupLoc (createLocation w inst) inst.lid).bind
        (fun p => p.auto_created_store.bind
          (fun sid => lookupLoc (createLocation w inst) sid))) = some s := by
  unfold createLocation auto_create_store_for_standalone
  have hcond : (inst.is_standalone && !inst.is_store) = true := by
    rw [hsa, hns]
    rfl
  rw [if_pos hcond]
  dsimp only
  set W1 : World := w ++ [inst] with hW1
  set sid : Nat := freshLid W1 with hsid
  set f : Loc → Loc :=
    fun l => if l.lid = inst.lid then { l with auto_created_store := some sid } else l
    with hf
  set store : Loc :=
    { lid := sid
      code := inst.code ++ "-MAIN-STORE"
      parent_location := some inst.lid
      is_store := true
      is_standalone := false
      is_main_store := true
      is_auto_created := true
      auto_created_store := none
      is_active := true } with hstore
  have hflid : ∀ l, (f l).lid = l.lid := by
    intro l
    rw [hf]
    dsimp only
    split_ifs <;> rfl
  have hmapped_none : lookupLoc (W1.map f) sid = none := by
    apply lookupLoc_eq_none
    intro l hl
    rcases List.mem_map.mp hl with ⟨x, hx, rfl⟩
    rw [hflid x]
    have hle := mem_lid_le_maxLid W1 x hx
    rw [hsid]
    unfold freshLid
    omega
  have hstore_lookup : lookupLoc (W1.map f ++ [store]) sid = some store := by
    rw [lookupLoc_append, hmapped_none]
    simp [lookupLoc, List.find?]
  have hW1_inst : lookupLoc W1 inst.lid = some inst := by
    rw [hW1, lookupLoc_append]
    rw [lookupLoc_eq_none w inst.lid hfresh]
    simp [lookupLoc, List.find?]
  have hinst_lookup :
      lookupLoc (W1.map f ++ [store]) inst.lid =
        some { inst with auto_created_store := some sid } := by
    rw [lookupLoc_append, lookupLoc_map_lid f hflid, hW1_inst]
    have : f inst = { inst with auto_created_store := some sid } := by
      rw [hf]
      simp
    simp [this]
  refine ⟨store, hstore_lookup, rfl, rfl, rfl, rfl, rfl, rfl, hinst_lookup, ?_⟩
  rw [hinst_lookup]
  simpa using hstore_lookup

/-- Witness for claim C4: creating the standalone department `CHEM` in
the four-node hierarchy provisions `CHEM-MAIN-STORE`. -/
theorem claim_C4_witness :
    ∃ s : Loc,
      lookupLoc (createLocation hierWorld newDept)
          (freshLid (hierWorld ++ [newDept])) = some s ∧
      s.is_store = true ∧ s.is_main_store = true ∧ s.is_auto_created = true ∧
      s.is_standalone = false ∧
      s.code = newDept.code ++ "-MAIN-STORE" ∧
      s.parent_location = some newDept.lid ∧
      lookupLoc (createLocation hierWorld newDept) newDept.lid =
        some { newDept with
          auto_created_store := some (freshLid (hierWorld ++ [newDept])) } ∧
      ((lookupLoc (createLocation hierWorld newDept) newDept.lid).bind
        (fun p => p.auto_created_store.bind
          (fun sid => lookupLoc (createLocation hierWorld newDept) sid))) =
        some s :=
  claim_C4_auto_store hierWorld newDept rfl rfl (by decide)

/-! ### Claim C6 -/

theorem optLocEq_iff (a b : Option Loc) :
    optLocEq a b = true ↔ a.map Loc.lid = b.map Loc.lid := by
  cases a <;> cases b <;> simp [optLocEq]

/-- Claim C6 is refuted at two concrete inputs in the four-node
hierarchy.  First, the department and its main store share the same
nearest standalone ancestor (the department itself), yet the department
— not being a store — cannot transfer to its store, against the claim's
first condition.  Second, the department main store is a main store and
the root store is the main custodian (`get_main_store`) of the
grandparent standalone ancestor (the root), yet `can_transfer_to` is
`false`: the code compares the target against the grandparent standalone
location itself, not against its main custodian. -/
theorem claim_C6_counterexample :
    (get_parent_standalone hierWorld 4 deptLoc = some deptLoc ∧
      get_parent_standalone hierWorld 4 deptStore = some deptLoc ∧
      can_transfer_to hierWorld 4 deptLoc deptStore = false) ∧
    (deptStore.is_main_store = true ∧
      get_parent_standalone hierWorld 4 deptStore = some deptLoc ∧
      deptLoc.parent_location = some rootLoc.lid ∧
      get_parent_standalone hierWorld 4 rootLoc = some rootLoc ∧
      get_main_store hierWorld 4 rootLoc = some rootStore ∧
      can_transfer_to hierWorld 4 deptStore rootStore = false) := by
  decide

/-- Claim C6 (amended): `can_transfer_to from to` is true if `from` is a
store and `from` and `to` have the same nearest standalone ancestor; and
additionally true if `from` is a store and a main store and `to` is
*itself* the grandparent standalone ancestor — the nearest standalone
ancestor of the parent of `from`'s nearest standalone ancestor — rather
than that ancestor's main custodian. -/
theorem claim_C6_amended_can_transfer
    (w : World) (fuel : Nat) (l target : Loc) :
    (l.is_store = true →
      (get_parent_standalone w fuel l).map Loc.lid =
        (get_parent_standalone w fuel target).map Loc.lid →
      can_transfer_to w fuel l target = true) ∧
    (l.is_store = true → l.is_main_store = true →
      ∀ s pl pop,
        get_parent_standalone w fuel l = some s →
        s.parent_location.bind (fun pid => lookupLoc w pid) = some pl →
        get_parent_standalone w fuel pl = some pop →
        target.lid = pop.lid →
        can_transfer_to w fuel l target = true) := by
  constructor
  · intro hs he
    unfold can_transfer_to
    dsimp only
    rw [hs]
    rw [if_neg (by simp)]
    rw [if_pos ((optLocEq_iff _ _).mpr he)]
  · intro hs hm s pl pop hgps hbind hgpp htl
    unfold can_transfer_to
    dsimp only
    rw [hs]
    rw [if_neg (by simp)]
    rw [hgps]
    by_cases he : optLocEq (some s) (get_parent_standalone w fuel target) = true
    · rw [if_pos he]
    · rw [if_neg he]
      rcases Option.bind_eq_some.mp hbind with ⟨pid, hpid, hlook⟩
      rw [if_pos (by simp [hm])]
      dsimp only
      rw [hpid]
      dsimp only
      rw [hlook]
      dsimp only
      rw [hgpp]
      simp [htl]

/-- Witness for the amended claim C6: within the four-node hierarchy the
department store may transfer inside its own hierarchy, and, as a main
store, upward to the root standalone location itself. -/
theorem claim_C6_witness :
    can_transfer_to hierWorld 4 deptStore deptStore = true ∧
      can_transfer_to hierWorld 4 deptStore rootLoc = true :=
  ⟨(claim_C6_amended_can_transfer hierWorld 4 deptStore deptStore).1 rfl
      (by decide),
    (claim_C6_amended_can_transfer hierWorld 4 deptStore rootLoc).2 rfl rfl
      deptLoc rootLoc rootLoc (by decide) (by decide) (by decide) rfl⟩

/-! ### Claim C1 -/

theorem lookupEntry_append (e₁ e₂ : List StockEntry) (i : Nat) :
    lookupEntry (e₁ ++ e₂) i = (lookupEntry e₁ i).or (lookupEntry e₂ i) :=
  List.find?_append

theorem lookupEntry_map_eid (g : StockEntry → StockEntry)
    (hg : ∀ e, (g e).eid = e.eid) (entries : List StockEntry) (i : Nat) :
    lookupEntry (entries.map g) i = (lookupEntry entries i).map g := by
  unfold lookupEntry
  rw [List.find?_map g entries]
  have : ((fun e : StockEntry => e.eid == i) ∘ g) =
      (fun e : StockEntry => e.eid == i) := by
    funext e
    simp [Function.comp, hg]
  rw [this]

theorem lookupEntry_eid (entries : List StockEntry) (i : Nat)
    (e : StockEntry) (h : lookupEntry entries i = some e) : e.eid = i := by
  have := List.find?_some h
  simpa using this

/-- Claim C1: acknowledging a pending `ISSUE` entry with disjoint lists
of accepted and rejected instance ids.  Every accepted instance gets
`source_location = to_location` (ownership transfer) and becomes
`IN_STORE` there; every rejected instance keeps its original
`source_location`, stays `IN_TRANSIT` with `current_location` redirected
to the entry's `from_location`; when the rejected list is non-empty
exactly one new `RETURN` entry in `PENDING_ACK` references exactly the
rejected instances (and none is created otherwise); and the original
entry is `COMPLETED` regardless of the split. -/
theorem claim_C1_acknowledge_receipt
    (insts : List ItemInstance) (entries : List StockEntry)
    (eid now fl tl : Nat) (accepted rejected : List Nat)
    (entry : StockEntry)
    (hfind : lookupEntry entries eid = some entry)
    (_htype : entry.entry_type = EntryType.ISSUE)
    (hstatus : entry.status = EntryStatus.PENDING_ACK)
    (hfl : entry.from_location = some fl)
    (htl : entry.to_location = some tl)
    (hne : ¬(accepted = [] ∧ rejected = []))
    (hdisj : ∀ x, x ∈ accepted → x ∉ rejected) :
    ∃ insts' entries',
      acknowledge_receipt insts entries eid accepted rejected now =
        Except.ok (insts', entries') ∧
      insts'.length = insts.length ∧
      (∀ k (hk : k < insts.length) (hk' : k < insts'.length),
        (insts'.get ⟨k, hk'⟩).iid = (insts.get ⟨k, hk⟩).iid ∧
        ((insts.get ⟨k, hk⟩).iid ∈ rejected →
          (insts'.get ⟨k, hk'⟩).source_location =
            (insts.get ⟨k, hk⟩).source_location ∧
          (insts'.get ⟨k, hk'⟩).current_status = InstanceStatus.IN_TRANSIT ∧
          (insts'.get ⟨k, hk'⟩).current_location = fl) ∧
        ((insts.get ⟨k, hk⟩).iid ∈ accepted →
          (insts'.get ⟨k, hk'⟩).source_location = tl ∧
          (insts'.get ⟨k, hk'⟩).current_status = InstanceStatus.IN_STORE ∧
          (insts'.get ⟨k, hk'⟩).current_location = tl) ∧
        ((insts.get ⟨k, hk⟩).iid ∉ accepted →
          (insts.get ⟨k, hk⟩).iid ∉ rejected →
          insts'.get ⟨k, hk'⟩ = insts.get ⟨k, hk⟩)) ∧
      (lookupEntry entries' eid).map StockEntry.status =
        some EntryStatus.COMPLETED ∧
      (rejected ≠ [] →
        ∃ r, (entries'.drop entries.length).filter
            (fun e => e.entry_type == EntryType.RETURN) = [r] ∧
          r.status = EntryStatus.PENDING_ACK ∧
          r.instance_ids = rejected ∧
          r.from_location = some tl ∧
          r.to_location = some fl ∧
          r.reference_entry = some eid) ∧
      (rejected = [] →
        (entries'.drop entries.length).filter
          (fun e => e.entry_type == EntryType.RETURN) = []) := by
  unfold acknowledge_receipt
  rw [hfind]
  dsimp only
  rw [if_neg (by simp [hstatus])]
  rw [if_neg hne]
  rw [hfl, htl]
  dsimp only
  refine ⟨_, _, rfl, by simp, ?_, ?_, ?_, ?_⟩
  · intro k hk hk'
    simp only [List.get_eq_getElem, List.getElem_map]
    by_cases hr : insts[k].iid ∈ rejected
    · have ha : insts[k].iid ∉ accepted := fun h => hdisj _ h hr
      rw [if_neg ha]
      rw [if_pos hr]
      exact ⟨rfl, fun _ => ⟨rfl, rfl, rfl⟩,
        fun h => absurd h ha, fun _ h => absurd hr h⟩
    · by_cases ha : insts[k].iid ∈ accepted
      · rw [if_pos ha]
        rw [if_neg hr]
        exact ⟨rfl, fun h => absurd h hr, fun _ => ⟨rfl, rfl, rfl⟩,
          fun h => absurd ha h⟩
      · rw [if_neg ha]
        rw [if_neg hr]
        exact ⟨rfl, fun h => absurd h hr, fun h => absurd h ha,
          fun _ _ => rfl⟩
  · rw [List.append_assoc, lookupEntry_append]
    rw [lookupEntry_map_eid _ (by
      intro e
      by_cases h : e.eid = eid <;> simp [h])]
    rw [hfind]
    have heid : entry.eid = eid := lookupEntry_eid entries eid entry hfind
    simp [heid]
  · intro hrj
    rw [List.append_assoc]
    rw [show entries.length = (entries.map fun e =>
        if e.eid = eid then { e with status := EntryStatus.COMPLETED }
        else e).length from by simp]
    rw [List.drop_left]
    rw [if_neg hrj]
    by_cases hacc : accepted = []
    · rw [if_pos hacc]
      exact ⟨_, rfl, rfl, rfl, rfl, rfl, rfl⟩
    · rw [if_neg hacc]
      exact ⟨_, rfl, rfl, rfl, rfl, rfl, rfl⟩
  · intro hrj
    rw [List.append_assoc]
    rw [show entries.length = (entries.map fun e =>
        if e.eid = eid then { e with status := EntryStatus.COMPLETED }
        else e).length from by simp]
    rw [List.drop_left]
    rw [if_pos hrj]
    by_cases hacc : accepted = []
    · rw [if_pos hacc]
      rfl
    · rw [if_neg hacc]
      rfl

/-- Witness for claim C1: acknowledging the pending issue, accepting
instances 11 and 12 and rejecting 13. -/
theorem claim_C1_witness :
    ∃ insts' entries',
      acknowledge_receipt ackInsts ackEntries 1 [11, 12] [13] 9 =
        Except.ok (insts', entries') ∧
      insts'.length = ackInsts.length ∧
      (∀ k (hk : k < ackInsts.length) (hk' : k < insts'.length),
        (insts'.get ⟨k, hk'⟩).iid = (ackInsts.get ⟨k, hk⟩).iid ∧
        ((ackInsts.get ⟨k, hk⟩).iid ∈ [13] →
          (insts'.get ⟨k, hk'⟩).source_location =
            (ackInsts.get ⟨k, hk⟩).source_location ∧
          (insts'.get ⟨k, hk'⟩).current_status = InstanceStatus.IN_TRANSIT ∧
          (insts'.get ⟨k, hk'⟩).current_location = 4) ∧
        ((ackInsts.get ⟨k, hk⟩).iid ∈ [11, 12] →
          (insts'.get ⟨k, hk'⟩).source_location = 2 ∧
          (insts'.get ⟨k, hk'⟩).current_status = InstanceStatus.IN_STORE ∧
          (insts'.get ⟨k, hk'⟩).current_location = 2) ∧
        ((ackInsts.get ⟨k, hk⟩).iid ∉ [11, 12] →
          (ackInsts.get ⟨k, hk⟩).iid ∉ [13] →
          insts'.get ⟨k, hk'⟩ = ackInsts.get ⟨k, hk⟩)) ∧
      (lookupEntry entries' 1).map StockEntry.status =
        some EntryStatus.COMPLETED ∧
      (([13] : List Nat) ≠ [] →
        ∃ r, (entries'.drop ackEntries.length).filter
            (fun e => e.entry_type == EntryType.RETURN) = [r] ∧
          r.status = EntryStatus.PENDING_ACK ∧
          r.instance_ids = [13] ∧
          r.from_location = some 2 ∧
          r.to_location = some 4 ∧
          r.reference_entry = some 1) ∧
      (([13] : List Nat) = [] →
        (entries'.drop ackEntries.length).filter
          (fun e => e.entry_type == EntryType.RETURN) = []) :=
  claim_C1_acknowledge_receipt ackInsts ackEntries 1 9 4 2 [11, 12] [13]
    pendingIssue rfl rfl rfl rfl rfl (by decide) (by decide)

/-! ### Claim C5 -/

theorem stageTrace_transition (c : Cert) (s : InspectionStage) :
    stageTrace (transition_stage c s) = stageTrace c ++ [s] := by
  unfold stageTrace transition_stage
  simp

/-- The canonical stage path a non-root certificate has followed when it
currently sits at a given (non-rejected) stage. -/
def nonRootPath : InspectionStage → List InspectionStage
  | InspectionStage.INITIATED => [InspectionStage.INITIATED]
  | InspectionStage.STOCK_DETAILS =>
    [InspectionStage.INITIATED, InspectionStage.STOCK_DETAILS]
  | InspectionStage.CENTRAL_REGISTER =>
    [InspectionStage.INITIATED, InspectionStage.STOCK_DETAILS,
      InspectionStage.CENTRAL_REGISTER]
  | InspectionStage.AUDIT_REVIEW =>
    [InspectionStage.INITIATED, InspectionStage.STOCK_DETAILS,
      InspectionStage.CENTRAL_REGISTER, InspectionStage.AUDIT_REVIEW]
  | InspectionStage.COMPLETED =>
    [InspectionStage.INITIATED, InspectionStage.STOCK_DETAILS,
      InspectionStage.CENTRAL_REGISTER, InspectionStage.AUDIT_REVIEW,
      InspectionStage.COMPLETED]
  | InspectionStage.REJECTED => []

/-- The canonical stage path of a root certificate (no
`STOCK_DETAILS`). -/
def rootPath : InspectionStage → List InspectionStage
  | InspectionStage.INITIATED => [InspectionStage.INITIATED]
  | InspectionStage.STOCK_DETAILS => []
  | InspectionStage.CENTRAL_REGISTER =>
    [InspectionStage.INITIATED, InspectionStage.CENTRAL_REGISTER]
  | InspectionStage.AUDIT_REVIEW =>
    [InspectionStage.INITIATED, InspectionStage.CENTRAL_REGISTER,
      InspectionStage.AUDIT_REVIEW]
  | InspectionStage.COMPLETED =>
    [InspectionStage.INITIATED, InspectionStage.CENTRAL_REGISTER,
      InspectionStage.AUDIT_REVIEW, InspectionStage.COMPLETED]
  | InspectionStage.REJECTED => []

def pathFor (root : Bool) (s : InspectionStage) : List InspectionStage :=
  if root then rootPath s else nonRootPath s

/-- The inductive invariant of the certificate workflow: away from
`REJECTED` the trace is exactly the canonical path to the current
stage; at `REJECTED` the trace is the canonical path to the stage
rejected from, followed by `REJECTED`. -/
def certInv (c : Cert) : Prop :=
  (c.stage ≠ InspectionStage.REJECTED →
    stageTrace c = pathFor c.is_root_department c.stage ∧
    (c.is_root_department = true →
      c.stage ≠ InspectionStage.STOCK_DETAILS)) ∧
  (c.stage = InspectionStage.REJECTED →
    ∃ s, s ≠ InspectionStage.COMPLETED ∧ s ≠ InspectionStage.REJECTED ∧
      (c.is_root_department = true → s ≠ InspectionStage.STOCK_DETAILS) ∧
      stageTrace c = pathFor c.is_root_department s ++
        [InspectionStage.REJECTED])

/-- Characterization of a successful view action: the root flag is
preserved, the trace grows by the new stage, and the (from, to) stage
pair is one of the six legal transitions. -/
theorem certStep_ok_cases (c c' : Cert) (a : CertAction)
    (h : certStep c a = Except.ok c') :
    c'.is_root_department = c.is_root_department ∧
    stageTrace c' = stageTrace c ++ [c'.stage] ∧
    ((c.stage = InspectionStage.INITIATED ∧ c.is_root_department = true ∧
        c'.stage = InspectionStage.CENTRAL_REGISTER) ∨
     (c.stage = InspectionStage.INITIATED ∧ c.is_root_department = false ∧
        c'.stage = InspectionStage.STOCK_DETAILS) ∨
     (c.stage = InspectionStage.STOCK_DETAILS ∧
        c.is_root_department = false ∧
        c'.stage = InspectionStage.CENTRAL_REGISTER) ∨
     (c.stage = InspectionStage.CENTRAL_REGISTER ∧
        c'.stage = InspectionStage.AUDIT_REVIEW) ∨
     (c.stage = InspectionStage.AUDIT_REVIEW ∧
        c'.stage = InspectionStage.COMPLETED) ∨
     (c.stage ≠ InspectionStage.COMPLETED ∧
        c.stage ≠ InspectionStage.REJECTED ∧
        c'.stage = InspectionStage.REJECTED)) := by
  cases a with
  | submitToStockIncharge d =>
    unfold certStep submit_to_stock_incharge at h
    dsimp only at h
    split_ifs at h with h1 h2 h3
    · obtain rfl : c' = _ := (Except.ok.inj h).symm
      refine ⟨rfl, ?_, Or.inl ⟨not_not.mp h1, h3, rfl⟩⟩
      rw [stageTrace_transition]
      rfl
    · obtain rfl : c' = _ := (Except.ok.inj h).symm
      refine ⟨rfl, ?_, Or.inr (Or.inl
        ⟨not_not.mp h1, by simpa using h3, rfl⟩)⟩
      rw [stageTrace_transition]
      rfl
  | submitStockDetails d =>
    unfold certStep submit_stock_details at h
    dsimp only at h
    split_ifs at h with h1 h2 h3 h4
    obtain rfl : c' = _ := (Except.ok.inj h).symm
    refine ⟨rfl, ?_, Or.inr (Or.inr (Or.inl
      ⟨not_not.mp h1, by simpa using h2, rfl⟩))⟩
    rw [stageTrace_transition]
    rfl
  | submitCentralRegister d =>
    unfold certStep submit_central_register at h
    dsimp only at h
    split_ifs at h with h1 h2 h3
    obtain rfl : c' = _ := (Except.ok.inj h).symm
    refine ⟨rfl, ?_, Or.inr (Or.inr (Or.inr (Or.inl
      ⟨not_not.mp h1, rfl⟩)))⟩
    rw [stageTrace_transition]
    rfl
  | submitAuditReview d =>
    unfold certStep submit_audit_review at h
    dsimp only at h
    split_ifs at h with h1 h2 h3 h4
    obtain rfl : c' = _ := (Except.ok.inj h).symm
    refine ⟨rfl, ?_, Or.inr (Or.inr (Or.inr (Or.inr (Or.inl
      ⟨not_not.mp h1, rfl⟩))))⟩
    rw [stageTrace_transition]
    rfl
  | reject r =>
    unfold certStep reject_certificate at h
    dsimp only at h
    split_ifs at h with h1 h2
    obtain rfl : c' = _ := (Except.ok.inj h).symm
    have h2' := not_or.mp h2
    refine ⟨rfl, ?_, Or.inr (Or.inr (Or.inr (Or.inr (Or.inr
      ⟨h2'.1, h2'.2, rfl⟩))))⟩
    rw [stageTrace_transition]
    rfl

/-- Every reachable certificate satisfies the workflow invariant. -/
theorem certInv_reachable (c : Cert) (h : CertReachable c) : certInv c := by
  induction h with
  | init root store items stock central consignee =>
    constructor
    · intro _
      constructor
      · cases root <;> rfl
      · intro _
        simp [initialCert]
    · intro hcontra
      simp [initialCert] at hcontra
  | step a hprev hstep ih =>
    rename_i c₀ c₁
    obtain ⟨hroot, htrace, hcases⟩ := certStep_ok_cases c₀ c₁ a hstep
    obtain ⟨ih1, ih2⟩ := ih
    rcases hcases with ⟨hs, hr, hs'⟩ | ⟨hs, hr, hs'⟩ | ⟨hs, hr, hs'⟩ |
      ⟨hs, hs'⟩ | ⟨hs, hs'⟩ | ⟨hsC, hsR, hs'⟩
    · obtain ⟨htr, _⟩ := ih1 (by rw [hs]; simp)
      constructor
      · intro _
        constructor
        · rw [htrace, htr, hroot, hs', hs, hr]
          rfl
        · intro _
          rw [hs']
          simp
      · intro hcontra
        rw [hs'] at hcontra
        simp at hcontra
    · obtain ⟨htr, _⟩ := ih1 (by rw [hs]; simp)
      constructor
      · intro _
        constructor
        · rw [htrace, htr, hroot, hs', hs, hr]
          rfl
        · intro hcontra
          rw [hroot, hr] at hcontra
          simp at hcontra
      · intro hcontra
        rw [hs'] at hcontra
        simp at hcontra
    · obtain ⟨htr, _⟩ := ih1 (by rw [hs]; simp)
      constructor
      · intro _
        constructor
        · rw [htrace, htr, hroot, hs', hs, hr]
          rfl
        · intro hcontra
          rw [hroot, hr] at hcontra
          simp at hcontra
      · intro hcontra
        rw [hs'] at hcontra
        simp at hcontra
    · obtain ⟨htr, hSD⟩ := ih1 (by rw [hs]; simp)
      constructor
      · intro _
        constructor
        · rw [htrace, htr, hroot, hs', hs]
          cases hbr : c₀.is_root_department <;> rfl
        · intro _
          rw [hs']
          simp
      · intro hcontra
        rw [hs'] at hcontra
        simp at hcontra
    · obtain ⟨htr, hSD⟩ := ih1 (by rw [hs]; simp)
      constructor
      · intro _
        constructor
        · rw [htrace, htr, hroot, hs', hs]
          cases hbr : c₀.is_root_department <;> rfl
        · intro _
          rw [hs']
          simp
      · intro hcontra
        rw [hs'] at hcontra
        simp at hcontra
    · obtain ⟨htr, hSD⟩ := ih1 hsR
      constructor
      · intro hcontra
        rw [hs'] at hcontra
        simp at hcontra
      · intro _
        refine ⟨c₀.stage, hsC, hsR, ?_, ?_⟩
        · intro hb
          exact hSD (hroot ▸ hb)
        · rw [htrace, htr, hroot, hs']

/-- Claim C5: a reachable non-root certificate's stage sequence is a
prefix of `INITIATED, STOCK_DETAILS, CENTRAL_REGISTER, AUDIT_REVIEW,
COMPLETED`, or such a proper prefix (stopping before `COMPLETED`)
followed by `REJECTED`; a reachable root certificate never passes
through `STOCK_DETAILS`, its sequence being a prefix of `INITIATED,
CENTRAL_REGISTER, AUDIT_REVIEW, COMPLETED` (so `INITIATED` steps
directly to `CENTRAL_REGISTER`), or such a proper prefix followed by
`REJECTED`. -/
theorem claim_C5_stage_sequences (c : Cert) (h : CertReachable c) :
    (c.is_root_department = false →
      (∃ t, stageTrace c ++ t =
        [InspectionStage.INITIATED, InspectionStage.STOCK_DETAILS,
          InspectionStage.CENTRAL_REGISTER, InspectionStage.AUDIT_REVIEW,
          InspectionStage.COMPLETED]) ∨
      (∃ p, stageTrace c = p ++ [InspectionStage.REJECTED] ∧ p ≠ [] ∧
        ∃ t, p ++ t =
          [InspectionStage.INITIATED, InspectionStage.STOCK_DETAILS,
            InspectionStage.CENTRAL_REGISTER,
            InspectionStage.AUDIT_REVIEW])) ∧
    (c.is_root_department = true →
      InspectionStage.STOCK_DETAILS ∉ stageTrace c ∧
      ((∃ t, stageTrace c ++ t =
        [InspectionStage.INITIATED, InspectionStage.CENTRAL_REGISTER,
          InspectionStage.AUDIT_REVIEW, InspectionStage.COMPLETED]) ∨
       (∃ p, stageTrace c = p ++ [InspectionStage.REJECTED] ∧ p ≠ [] ∧
         ∃ t, p ++ t =
           [InspectionStage.INITIATED, InspectionStage.CENTRAL_REGISTER,
             InspectionStage.AUDIT_REVIEW]))) := by
  obtain ⟨h1, h2⟩ := certInv_reachable c h
  constructor
  · intro hroot
    by_cases hrej : c.stage = InspectionStage.REJECTED
    · obtain ⟨s, hsC, hsR, _, htr⟩ := h2 hrej
      right
      rw [htr, pathFor, hroot]
      simp only [Bool.false_eq_true, if_false]
      refine ⟨nonRootPath s, rfl, ?_, ?_⟩
      · cases s <;> simp_all [nonRootPath]
      · cases s with
        | INITIATED => exact ⟨[InspectionStage.STOCK_DETAILS,
            InspectionStage.CENTRAL_REGISTER, InspectionStage.AUDIT_REVIEW], rfl⟩
        | STOCK_DETAILS => exact ⟨[InspectionStage.CENTRAL_REGISTER,
            InspectionStage.AUDIT_REVIEW], rfl⟩
        | CENTRAL_REGISTER => exact ⟨[InspectionStage.AUDIT_REVIEW], rfl⟩
        | AUDIT_REVIEW => exact ⟨[], rfl⟩
        | COMPLETED => exact absurd rfl hsC
        | REJECTED => exact absurd rfl hsR
    · obtain ⟨htr, _⟩ := h1 hrej
      left
      rw [htr, pathFor, hroot]
      simp only [Bool.false_eq_true, if_false]
      cases hstage : c.stage with
      | INITIATED => exact ⟨[InspectionStage.STOCK_DETAILS,
          InspectionStage.CENTRAL_REGISTER, InspectionStage.AUDIT_REVIEW,
          InspectionStage.COMPLETED], rfl⟩
      | STOCK_DETAILS => exact ⟨[InspectionStage.CENTRAL_REGISTER,
          InspectionStage.AUDIT_REVIEW, InspectionStage.COMPLETED], rfl⟩
      | CENTRAL_REGISTER => exact ⟨[InspectionStage.AUDIT_REVIEW,
          InspectionStage.COMPLETED], rfl⟩
      | AUDIT_REVIEW => exact ⟨[InspectionStage.COMPLETED], rfl⟩
      | COMPLETED => exact ⟨[], rfl⟩
      | REJECTED => exact absurd hstage hrej
  · intro hroot
    by_cases hrej : c.stage = InspectionStage.REJECTED
    · obtain ⟨s, hsC, hsR, hsS, htr⟩ := h2 hrej
      rw [htr, pathFor, hroot]
      simp only [if_true]
      have hsS2 := hsS hroot
      constructor
      · cases s <;> simp_all [rootPath]
      · right
        refine ⟨rootPath s, rfl, ?_, ?_⟩
        · cases s <;> simp_all [rootPath]
        · cases s with
          | INITIATED => exact ⟨[InspectionStage.CENTRAL_REGISTER,
              InspectionStage.AUDIT_REVIEW], rfl⟩
          | STOCK_DETAILS => exact absurd rfl hsS2
          | CENTRAL_REGISTER => exact ⟨[InspectionStage.AUDIT_REVIEW], rfl⟩
          | AUDIT_REVIEW => exact ⟨[], rfl⟩
          | COMPLETED => exact absurd rfl hsC
          | REJECTED => exact absurd rfl hsR
    · obtain ⟨htr, hSD⟩ := h1 hrej
      have hSD' := hSD hroot
      rw [htr, pathFor, hroot]
      simp only [if_true]
      constructor
      · cases hstage : c.stage <;> simp_all [rootPath]
      · left
        cases hstage : c.stage with
        | INITIATED => exact ⟨[InspectionStage.CENTRAL_REGISTER,
            InspectionStage.AUDIT_REVIEW, InspectionStage.COMPLETED], rfl⟩
        | STOCK_DETAILS => exact absurd hstage hSD'
        | CENTRAL_REGISTER => exact ⟨[InspectionStage.AUDIT_REVIEW,
            InspectionStage.COMPLETED], rfl⟩
        | AUDIT_REVIEW => exact ⟨[InspectionStage.COMPLETED], rfl⟩
        | COMPLETED => exact ⟨[], rfl⟩
        | REJECTED => exact absurd hstage hrej

/-- Witness for claim C5: a freshly created non-root certificate is
reachable and its trace satisfies the stage-sequence property. -/
theorem claim_C5_witness :
    ((initialCert false true true true true true).is_root_department = false →
      (∃ t, stageTrace (initialCert false true true true true true) ++ t =
        [InspectionStage.INITIATED, InspectionStage.STOCK_DETAILS,
          InspectionStage.CENTRAL_REGISTER, InspectionStage.AUDIT_REVIEW,
          InspectionStage.COMPLETED]) ∨
      (∃ p, stageTrace (initialCert false true true true true true) =
          p ++ [InspectionStage.REJECTED] ∧ p ≠ [] ∧
        ∃ t, p ++ t =
          [InspectionStage.INITIATED, InspectionStage.STOCK_DETAILS,
            InspectionStage.CENTRAL_REGISTER,
            InspectionStage.AUDIT_REVIEW])) ∧
    ((initialCert false true true true true true).is_root_department = true →
      InspectionStage.STOCK_DETAILS ∉
        stageTrace (initialCert false true true true true true) ∧
      ((∃ t, stageTrace (initialCert false true true true true true) ++ t =
        [InspectionStage.INITIATED, InspectionStage.CENTRAL_REGISTER,
          InspectionStage.AUDIT_REVIEW, InspectionStage.COMPLETED]) ∨
       (∃ p, stageTrace (initialCert false true true true true true) =
           p ++ [InspectionStage.REJECTED] ∧ p ≠ [] ∧
         ∃ t, p ++ t =
           [InspectionStage.INITIATED, InspectionStage.CENTRAL_REGISTER,
             InspectionStage.AUDIT_REVIEW]))) :=
  claim_C5_stage_sequences (initialCert false true true true true true)
    (CertReachable.init false true true true true true)

end AmsUser
